import Mathlib

/-!
Verification development for the persistence core of the WOKCommands repository:
the cooldown document-store repository (identity derivation, upsert, delete),
the guild-settings cache-aside orchestrator, and the connectivity-guarded
repository accessors.  Definitions are shallow embeddings of the TypeScript
source; asynchronous storage calls are modelled by threading an explicit
document list and recording the issued storage operations in a trace list.
-/

namespace WOK

/-- JavaScript template-literal interpolation of a possibly-undefined string:
an undefined value prints as the text undefined. -/
def tsStr : Option String → String
  | some s => s
  | none => "undefined"

/-- JavaScript truthiness of a possibly-undefined string: undefined and the
empty string are falsy, every other string is truthy. -/
def tsTruthy : Option String → Bool
  | some s => s ≠ ""
  | none => false

/-- The cooldown domain entity: command, guild, optional user, scope
discriminator (the field is named type in the source) and the counter. -/
structure CooldownEntity where
  commandId : String
  guildId : String
  userId : Option String
  type : String
  secondsRemaining : Int
deriving Repr, DecidableEq

/-- The WhereOneInput query shape used by findOne and delete:
commandId, guildId and an optional userId; it carries no scope field. -/
structure WhereOneInput where
  commandId : String
  guildId : String
  userId : Option String
deriving Repr, DecidableEq

/-- One persisted cooldown document, with the bit-exact field names of the
mongoose schema. -/
structure CooldownDoc where
  _id : String
  name : String
  type : String
  cooldown : Int
deriving Repr, DecidableEq

/-- A storage operation issued against the cooldown collection; repository
operations return the list of operations they issued, so that
before-any-storage-call claims are expressible. -/
inductive MongoCall where
  | findOneAndUpdate (id name type : String) (cooldown : Int)
  | deleteOne (id name : String)
deriving Repr, DecidableEq

/-- mongoose deleteOne with a filter on _id and name: removes the first
document matching both fields, or nothing when no document matches. -/
def storeDeleteOne : List CooldownDoc → String → String → List CooldownDoc
  | [], _, _ => []
  | d :: ds, i, n => if d._id = i ∧ d.name = n then ds else d :: storeDeleteOne ds i n

/-- mongoose findOneAndUpdate with upsert on a filter of _id, name and type:
replaces the first document matching all three fields, or appends the new
document when no document matches. -/
def storeUpsert : List CooldownDoc → CooldownDoc → List CooldownDoc
  | [], u => [u]
  | d :: ds, u =>
    if d._id = u._id ∧ d.name = u.name ∧ d.type = u.type then u :: ds
    else d :: storeUpsert ds u

namespace MongoCooldownRepository

/-- getIdFromWhereOneInput: the suffix is present only when userId is truthy
(so neither undefined nor the empty string). -/
def getIdFromWhereOneInput (input : WhereOneInput) : String :=
  let userIdSuffix := if tsTruthy input.userId then "-" ++ tsStr input.userId else ""
  input.commandId ++ "-" ++ input.guildId ++ userIdSuffix

/-- getIdFromEntity: global scope joins commandId and guildId; per-user scope
additionally appends userId; any other scope value raises the unrecognized
Cooldown type error. -/
def getIdFromEntity (cooldown : CooldownEntity) : Except String String :=
  if cooldown.type = "global" then
    Except.ok (cooldown.commandId ++ "-" ++ cooldown.guildId)
  else if cooldown.type = "per-user" then
    Except.ok (cooldown.commandId ++ "-" ++ cooldown.guildId ++ "-" ++ tsStr cooldown.userId)
  else
    Except.error "WOK Commands > unrecognized Cooldown type"

/-- findOne: the body is a bare throw of a not-implemented error. -/
def findOne (input : WhereOneInput) : Except String (Option CooldownEntity) :=
  Except.error "Method not implemented."

/-- delete: derives the key with getIdFromWhereOneInput and issues deleteOne
filtered by that key and, redundantly, the commandId; it never inspects a
scope and never fails. -/
def delete (input : WhereOneInput) (docs : List CooldownDoc) :
    List MongoCall × Except String (List CooldownDoc) :=
  let i := getIdFromWhereOneInput input
  ([MongoCall.deleteOne i input.commandId],
   Except.ok (storeDeleteOne docs i input.commandId))

/-- save: derives the key with getIdFromEntity (failing, with no storage
operation issued, on an unrecognized scope), issues the filtered upsert, and
returns the very entity it was given. -/
def save (cooldown : CooldownEntity) (docs : List CooldownDoc) :
    List MongoCall × Except String (List CooldownDoc × CooldownEntity) :=
  match getIdFromEntity cooldown with
  | Except.error e => ([], Except.error e)
  | Except.ok i =>
    ([MongoCall.findOneAndUpdate i cooldown.commandId cooldown.type cooldown.secondsRemaining],
     Except.ok
       (storeUpsert docs
         { _id := i, name := cooldown.commandId, type := cooldown.type,
           cooldown := cooldown.secondsRemaining },
        cooldown))

end MongoCooldownRepository

/-- Modelled from the spec: the GuildSettingsAggregate domain class is not among
the given source files; per the spec it carries the immutable tenant id, a
prefix value object wrapping a string, and a category map, and the aggregate
constructed from a guildId alone has the default prefix and an empty category
map. -/
structure GuildSettingsAggregate where
  guildId : String
  prefixVal : String
  categories : List (String × String)
deriving Repr, DecidableEq

/-- Modelled from the spec: the default aggregate constructed on a miss, with
the default prefix and an empty category map. -/
def GuildSettingsAggregate.mkDefault (guildId : String) : GuildSettingsAggregate :=
  { guildId := guildId, prefixVal := "!", categories := [] }

/-- An IGuildSettingsRepository implementation, abstracted over the storage:
findOne as a function from guildId to the stored aggregate if any, save as the
function giving the value the backend returns for a saved aggregate, findAll
as the list of all stored aggregates. -/
structure GuildSettingsRepo where
  findOneFn : String → Option GuildSettingsAggregate
  saveFn : GuildSettingsAggregate → GuildSettingsAggregate
  findAllFn : List GuildSettingsAggregate

/-- An ICooldownRepository implementation as injected into the orchestrator. -/
structure CooldownRepoIface where
  findOneFn : WhereOneInput → Except String (Option CooldownEntity)
  saveFn : CooldownEntity → List CooldownDoc →
    List MongoCall × Except String (List CooldownDoc × CooldownEntity)
  deleteFn : WhereOneInput → List CooldownDoc →
    List MongoCall × Except String (List CooldownDoc)

/-- The built-in document-store cooldown repository packaged as an interface. -/
def MongoCooldownRepository.iface : CooldownRepoIface :=
  { findOneFn := MongoCooldownRepository.findOne
    saveFn := MongoCooldownRepository.save
    deleteFn := MongoCooldownRepository.delete }

/-- Modelled from the spec: the DbConnectionStatus enumeration file is not
among the given source files; its members are read off the orchestrator
source (the readyState mapping plus UNKNOWN and NO_DATABASE). -/
inductive DbConnectionStatus where
  | DISCONNECTED
  | CONNECTED
  | CONNECTING
  | DISCONNECTING
  | UNKNOWN
  | NO_DATABASE
deriving Repr, DecidableEq

/-- The in-memory guild settings cache, a discord.js Collection (a Map) from
guildId to aggregate, as an insertion-ordered association list. -/
abbrev GuildSettingsCache := List (String × GuildSettingsAggregate)

/-- Map.get on the cache. -/
def cacheGet (c : GuildSettingsCache) (k : String) : Option GuildSettingsAggregate :=
  (c.find? (fun p => p.1 = k)).map (fun p => p.2)

/-- Map.set on the cache: replaces the value at an existing key in place,
otherwise appends the new entry at the end. -/
def cacheSet : GuildSettingsCache → String → GuildSettingsAggregate → GuildSettingsCache
  | [], k, v => [(k, v)]
  | p :: ps, k, v => if p.1 = k then (k, v) :: ps else p :: cacheSet ps k v

/-- A repository call issued by the orchestrator against the guild settings
repository; operations return the list of calls they issued. -/
inductive GSCall where
  | findOne (guildId : String)
  | findAll
  | save (agg : GuildSettingsAggregate)
deriving Repr, DecidableEq

/-- A guild reference: only its id is used by the core. -/
structure Guild where
  id : String
deriving Repr, DecidableEq

/-- The orchestrator state: the two connectivity probes (absent when no
persistence strategy was configured; modelled as the pure values the probes
return), the two injected repositories, and the guild settings cache.  The
probes and repositories are set once by setUp and never reassigned. -/
structure WOKCommands where
  _isDbConnected : Option Bool
  _getDbConnectionStatus : Option DbConnectionStatus
  _guildSettingsRepository : Option GuildSettingsRepo
  _cooldownRepository : Option CooldownRepoIface
  _guildSettings : GuildSettingsCache

/-- isDBConnected: false when no probe is configured, otherwise the probe
value. -/
def WOKCommands.isDBConnected (w : WOKCommands) : Bool :=
  match w._isDbConnected with
  | some b => b
  | none => false

/-- dbConnectionStatus: UNKNOWN when no probe is configured, otherwise the
probe value. -/
def WOKCommands.dbConnectionStatus (w : WOKCommands) : DbConnectionStatus :=
  match w._getDbConnectionStatus with
  | some s => s
  | none => DbConnectionStatus.UNKNOWN

/-- The guarded guildSettingsRepository accessor: fails first when the
connectivity probe reports false, then when no repository is configured; it
issues no repository operation in any case. -/
def WOKCommands.guildSettingsRepository (w : WOKCommands) :
    Except String GuildSettingsRepo :=
  if !w.isDBConnected then Except.error "DB not connected!"
  else
    match w._guildSettingsRepository with
    | none => Except.error "_guildSettingsRepository not defined!"
    | some r => Except.ok r

/-- The guarded cooldownRepository accessor, with the same two guards. -/
def WOKCommands.cooldownRepository (w : WOKCommands) :
    Except String CooldownRepoIface :=
  if !w.isDBConnected then Except.error "DB not connected!"
  else
    match w._cooldownRepository with
    | none => Except.error "_cooldownRepository not defined!"
    | some r => Except.ok r

/-- getOrCreateGuildSettings: cache-aside.  On a hit the cached aggregate is
returned with no repository call and no state change; on a miss the guarded
repository is consulted with findOne, a default aggregate is constructed when
storage has no record, and the result is stored in the cache under guildId
and returned. -/
def WOKCommands.getOrCreateGuildSettings (w : WOKCommands) (guildId : String) :
    List GSCall × Except String (GuildSettingsAggregate × WOKCommands) :=
  match cacheGet w._guildSettings guildId with
  | some gs => ([], Except.ok (gs, w))
  | none =>
    match w.guildSettingsRepository with
    | Except.error e => ([], Except.error e)
    | Except.ok repo =>
      let gs := (repo.findOneFn guildId).getD (GuildSettingsAggregate.mkDefault guildId)
      ([GSCall.findOne guildId],
       Except.ok (gs, { w with _guildSettings := cacheSet w._guildSettings guildId gs }))

/-- setPrefix: a no-op when guild is null; otherwise resolves or creates the
aggregate, mutates its prefix, persists it through the guarded repository and
stores the value returned by save in the cache under the guild id. -/
def WOKCommands.setPrefix (w : WOKCommands) (guild : Option Guild) (p : String) :
    List GSCall × Except String WOKCommands :=
  match guild with
  | none => ([], Except.ok w)
  | some g =>
    match w.getOrCreateGuildSettings g.id with
    | (calls1, Except.error e) => (calls1, Except.error e)
    | (calls1, Except.ok (gs, w1)) =>
      let mutated := { gs with prefixVal := p }
      match w1.guildSettingsRepository with
      | Except.error e => (calls1, Except.error e)
      | Except.ok repo =>
        let updated := repo.saveFn mutated
        (calls1 ++ [GSCall.save mutated],
         Except.ok { w1 with _guildSettings := cacheSet w1._guildSettings g.id updated })

/-- The startup cache warm: every aggregate returned by findAll is inserted
into a fresh cache keyed by its guildId, in order (the reduce in setUp). -/
def warmCache (l : List GuildSettingsAggregate) : GuildSettingsCache :=
  l.foldl (fun c s => cacheSet c s.guildId s) []

/-- The database section of setUp: when a persistence strategy was configured
(useDb), it checks the connection status, fails fatally when the status is
not CONNECTED, and otherwise calls findAll through the guarded accessor
exactly once and replaces the cache with the warmed collection; all of this
happens before the command handler is constructed. -/
def WOKCommands.setUpDbPhase (w : WOKCommands) (useDb : Bool) :
    List GSCall × Except String WOKCommands :=
  if useDb then
    if w.dbConnectionStatus ≠ DbConnectionStatus.CONNECTED then
      ([], Except.error "WOKCommands > Database not connected!")
    else
      match w.guildSettingsRepository with
      | Except.error e => ([], Except.error e)
      | Except.ok repo =>
        ([GSCall.findAll],
         Except.ok { w with _guildSettings := warmCache repo.findAllFn })
  else ([], Except.ok w)

/-! Helper lemmas about the storage and cache primitives. -/

theorem storeDeleteOne_sublist (docs : List CooldownDoc) (i n : String) :
    (storeDeleteOne docs i n).Sublist docs := by
  induction docs with
  | nil => simp [storeDeleteOne]
  | cons d ds ih =>
    by_cases h : d._id = i ∧ d.name = n
    · simpa [storeDeleteOne, h] using (List.Sublist.refl ds).cons d
    · simpa [storeDeleteOne, h] using ih.cons₂ d

theorem storeDeleteOne_removed_matches (docs : List CooldownDoc) (i n : String)
    (d : CooldownDoc) (hd : d ∈ docs) (hnd : d ∉ storeDeleteOne docs i n) :
    d._id = i ∧ d.name = n := by
  induction docs with
  | nil => cases hd
  | cons e ds ih =>
    by_cases h : e._id = i ∧ e.name = n
    · simp only [storeDeleteOne, h, if_pos] at hnd
      rcases List.mem_cons.mp hd with he | hds
      · subst he; exact h
      · exact absurd hds hnd
    · simp only [storeDeleteOne, h, if_neg, not_false_iff, List.mem_cons, not_or] at hnd
      rcases List.mem_cons.mp hd with he | hds
      · exact absurd he hnd.1
      · exact ih hds hnd.2

theorem storeDeleteOne_length (docs : List CooldownDoc) (i n : String)
    (h : ∃ d ∈ docs, d._id = i ∧ d.name = n) :
    (storeDeleteOne docs i n).length + 1 = docs.length := by
  induction docs with
  | nil => rcases h with ⟨d, hd, _⟩; cases hd
  | cons e ds ih =>
    by_cases he : e._id = i ∧ e.name = n
    · simp [storeDeleteOne, he]
    · have hin : ∃ d ∈ ds, d._id = i ∧ d.name = n := by
        rcases h with ⟨d, hd, hmatch⟩
        rcases List.mem_cons.mp hd with rfl | hds
        · exact absurd hmatch he
        · exact ⟨d, hds, hmatch⟩
      have h2 := ih hin
      simp only [storeDeleteOne, he, if_neg, not_false_iff, List.length_cons]
      omega

theorem storeDeleteOne_no_match (docs : List CooldownDoc) (i n : String)
    (h : ∀ d ∈ docs, ¬(d._id = i ∧ d.name = n)) :
    storeDeleteOne docs i n = docs := by
  induction docs with
  | nil => rfl
  | cons e ds ih =>
    have he := h e (List.mem_cons_self e ds)
    simp only [storeDeleteOne, he, if_neg, not_false_iff]
    rw [ih (fun d hd => h d (List.mem_cons_of_mem e hd))]

theorem cacheGet_cacheSet_self (c : GuildSettingsCache) (k : String)
    (v : GuildSettingsAggregate) : cacheGet (cacheSet c k v) k = some v := by
  induction c with
  | nil => simp [cacheGet, cacheSet, List.find?]
  | cons p ps ih =>
    by_cases h : p.1 = k
    · simp [cacheGet, cacheSet, h, List.find?]
    · simp only [cacheSet, h, if_neg, not_false_iff]
      simpa [cacheGet, List.find?, h] using ih

theorem cacheGet_cacheSet_ne (c : GuildSettingsCache) (k k2 : String)
    (v : GuildSettingsAggregate) (h : k2 ≠ k) :
    cacheGet (cacheSet c k v) k2 = cacheGet c k2 := by
  induction c with
  | nil => simp [cacheGet, cacheSet, List.find?, Ne.symm h]
  | cons p ps ih =>
    by_cases hp : p.1 = k
    · subst hp
      simp [cacheGet, cacheSet, List.find?, Ne.symm h]
    · simp only [cacheSet, hp, if_neg, not_false_iff]
      by_cases hp2 : p.1 = k2
      · simp [cacheGet, List.find?, hp2]
      · simpa [cacheGet, List.find?, hp2] using ih

theorem warm_mem_aux (l : List GuildSettingsAggregate) :
    ∀ (c : GuildSettingsCache) (k : String),
      ((∃ a ∈ l, a.guildId = k) ∨ (∃ b, cacheGet c k = some b ∧ b.guildId = k)) →
      ∃ b, cacheGet (List.foldl (fun c2 s => cacheSet c2 s.guildId s) c l) k = some b ∧
        b.guildId = k := by
  induction l with
  | nil =>
    intro c k h
    rcases h with ⟨a, ha, _⟩ | hb
    · cases ha
    · simpa using hb
  | cons s l ih =>
    intro c k h
    simp only [List.foldl_cons]
    apply ih (cacheSet c s.guildId s) k
    by_cases hk : s.guildId = k
    · right
      refine ⟨s, ?_, hk⟩
      rw [hk] at *
      exact cacheGet_cacheSet_self c k s
    · rcases h with ⟨a, ha, hak⟩ | ⟨b, hb, hbk⟩
      · rcases List.mem_cons.mp ha with rfl | hal
        · exact absurd hak hk
        · exact Or.inl ⟨a, hal, hak⟩
      · right
        refine ⟨b, ?_, hbk⟩
        rw [cacheGet_cacheSet_ne c s.guildId k s (fun hh => hk hh.symm)]
        exact hb

theorem warmCache_mem (l : List GuildSettingsAggregate) (a : GuildSettingsAggregate)
    (ha : a ∈ l) :
    ∃ b, cacheGet (warmCache l) a.guildId = some b ∧ b.guildId = a.guildId :=
  warm_mem_aux l [] a.guildId (Or.inl ⟨a, ha, rfl⟩)

theorem guildSettingsRepository_eq_ok (w : WOKCommands) (repo : GuildSettingsRepo)
    (hconn : w.isDBConnected = true) (hrepo : w._guildSettingsRepository = some repo) :
    w.guildSettingsRepository = Except.ok repo := by
  simp [WOKCommands.guildSettingsRepository, hconn, hrepo]

theorem getIdFromEntity_global (e : CooldownEntity) (h : e.type = "global") :
    MongoCooldownRepository.getIdFromEntity e
      = Except.ok (e.commandId ++ "-" ++ e.guildId) := by
  simp [MongoCooldownRepository.getIdFromEntity, h]

theorem getIdFromEntity_perUser (e : CooldownEntity) (h : e.type = "per-user") :
    MongoCooldownRepository.getIdFromEntity e
      = Except.ok (e.commandId ++ "-" ++ e.guildId ++ "-" ++ tsStr e.userId) := by
  simp [MongoCooldownRepository.getIdFromEntity, h]

theorem getIdFromEntity_unrecognized (e : CooldownEntity)
    (h1 : e.type ≠ "global") (h2 : e.type ≠ "per-user") :
    MongoCooldownRepository.getIdFromEntity e
      = Except.error "WOK Commands > unrecognized Cooldown type" := by
  simp [MongoCooldownRepository.getIdFromEntity, h1, h2]

theorem save_of_getId_ok (e : CooldownEntity) (docs : List CooldownDoc) (i : String)
    (hid : MongoCooldownRepository.getIdFromEntity e = Except.ok i) :
    MongoCooldownRepository.save e docs
      = ([MongoCall.findOneAndUpdate i e.commandId e.type e.secondsRemaining],
         Except.ok
           (storeUpsert docs
             { _id := i, name := e.commandId, type := e.type, cooldown := e.secondsRemaining },
            e)) := by
  unfold MongoCooldownRepository.save
  rw [hid]

/-! The claims. -/

/-- Claim C1: for every commandId and guildId, the identity derived for a
global-scoped entity equals commandId-guildId, and for every commandId,
guildId, userId the identity derived for a per-user-scoped entity equals
commandId-guildId-userId; the derivation is pure, depending on nothing but
the commandId, guildId, userId and type fields. -/
theorem getIdFromEntity_spec :
    (∀ (cmd g : String) (u : Option String) (sr : Int),
      MongoCooldownRepository.getIdFromEntity
        { commandId := cmd, guildId := g, userId := u, type := "global",
          secondsRemaining := sr }
        = Except.ok (cmd ++ "-" ++ g)) ∧
    (∀ (cmd g u : String) (sr : Int),
      MongoCooldownRepository.getIdFromEntity
        { commandId := cmd, guildId := g, userId := some u, type := "per-user",
          secondsRemaining := sr }
        = Except.ok (cmd ++ "-" ++ g ++ "-" ++ u)) ∧
    (∀ e1 e2 : CooldownEntity,
      e1.commandId = e2.commandId → e1.guildId = e2.guildId →
      e1.userId = e2.userId → e1.type = e2.type →
      MongoCooldownRepository.getIdFromEntity e1
        = MongoCooldownRepository.getIdFromEntity e2) := by
  refine ⟨?_, ?_, ?_⟩
  · intro cmd g u sr
    exact getIdFromEntity_global _ rfl
  · intro cmd g u sr
    exact getIdFromEntity_perUser _ rfl
  · intro e1 e2 h1 h2 h3 h4
    simp only [MongoCooldownRepository.getIdFromEntity, h1, h2, h3, h4]

/-- Witness for C1 at concrete inputs, the determinism conjunct applied to two
entities differing only in the secondsRemaining field. -/
theorem getIdFromEntity_spec_witness :
    MongoCooldownRepository.getIdFromEntity
      { commandId := "ban", guildId := "g1", userId := none, type := "global",
        secondsRemaining := 5 } = Except.ok "ban-g1" ∧
    MongoCooldownRepository.getIdFromEntity
      { commandId := "ban", guildId := "g1", userId := some "u1", type := "per-user",
        secondsRemaining := 5 } = Except.ok "ban-g1-u1" ∧
    MongoCooldownRepository.getIdFromEntity
      { commandId := "ban", guildId := "g1", userId := some "u1", type := "global",
        secondsRemaining := 5 }
      = MongoCooldownRepository.getIdFromEntity
      { commandId := "ban", guildId := "g1", userId := some "u1", type := "global",
        secondsRemaining := 99 } :=
  ⟨getIdFromEntity_spec.1 "ban" "g1" none 5,
   getIdFromEntity_spec.2.1 "ban" "g1" "u1" 5,
   getIdFromEntity_spec.2.2 _ _ rfl rfl rfl rfl⟩

/-- Claim C3: findOne fails with the explicit not-implemented error on every
input and never returns an ok result, absent or otherwise. -/
theorem findOne_not_implemented (input : WhereOneInput) :
    MongoCooldownRepository.findOne input = Except.error "Method not implemented." ∧
    ∀ r : Option CooldownEntity,
      MongoCooldownRepository.findOne input ≠ Except.ok r := by
  refine ⟨rfl, ?_⟩
  intro r h
  exact Except.noConfusion h

/-- Witness for C3 at a concrete query. -/
theorem findOne_not_implemented_witness :
    MongoCooldownRepository.findOne { commandId := "ban", guildId := "g1", userId := none }
      = Except.error "Method not implemented." ∧
    ∀ r : Option CooldownEntity,
      MongoCooldownRepository.findOne { commandId := "ban", guildId := "g1", userId := none }
        ≠ Except.ok r :=
  findOne_not_implemented { commandId := "ban", guildId := "g1", userId := none }

/-- Claim C9: delete on commandId ban and guildId g1 issues deleteOne on the
derived key ban-g1 and, redundantly, the command identifier; only documents
matching both fields are removed, exactly one is removed when one matches,
and a query whose derived key matches no stored document is a no-op that
completes without error. -/
theorem delete_removes_matching_doc :
    (∀ docs : List CooldownDoc,
      MongoCooldownRepository.delete { commandId := "ban", guildId := "g1", userId := none } docs
        = ([MongoCall.deleteOne "ban-g1" "ban"],
           Except.ok (storeDeleteOne docs "ban-g1" "ban"))) ∧
    (∀ docs : List CooldownDoc, (storeDeleteOne docs "ban-g1" "ban").Sublist docs) ∧
    (∀ (docs : List CooldownDoc) (d : CooldownDoc), d ∈ docs →
      d ∉ storeDeleteOne docs "ban-g1" "ban" → d._id = "ban-g1" ∧ d.name = "ban") ∧
    (∀ docs : List CooldownDoc, (∃ d ∈ docs, d._id = "ban-g1" ∧ d.name = "ban") →
      (storeDeleteOne docs "ban-g1" "ban").length + 1 = docs.length) ∧
    (∀ (input : WhereOneInput) (docs : List CooldownDoc),
      (∀ d ∈ docs, d._id ≠ MongoCooldownRepository.getIdFromWhereOneInput input) →
      MongoCooldownRepository.delete input docs
        = ([MongoCall.deleteOne (MongoCooldownRepository.getIdFromWhereOneInput input)
              input.commandId],
           Except.ok docs)) := by
  refine ⟨fun docs => rfl, fun docs => storeDeleteOne_sublist docs _ _,
    fun docs d hd hnd => storeDeleteOne_removed_matches docs _ _ d hd hnd,
    fun docs h => storeDeleteOne_length docs _ _ h, ?_⟩
  intro input docs h
  have hno : storeDeleteOne docs (MongoCooldownRepository.getIdFromWhereOneInput input)
      input.commandId = docs :=
    storeDeleteOne_no_match _ _ _ (fun d hd hc => h d hd hc.1)
  simp [MongoCooldownRepository.delete, hno]

/-- Witness for C9: deleting ban-g1 from a one-document store empties it, and
deleting a key that matches nothing leaves the store unchanged. -/
theorem delete_removes_matching_doc_witness :
    MongoCooldownRepository.delete { commandId := "ban", guildId := "g1", userId := none }
        [{ _id := "ban-g1", name := "ban", type := "global", cooldown := 3 }]
      = ([MongoCall.deleteOne "ban-g1" "ban"], Except.ok []) ∧
    (∃ d ∈ [({ _id := "ban-g1", name := "ban", type := "global", cooldown := 3 } : CooldownDoc)],
       d._id = "ban-g1" ∧ d.name = "ban") ∧
    (storeDeleteOne [{ _id := "ban-g1", name := "ban", type := "global", cooldown := 3 }]
        "ban-g1" "ban").length + 1
      = [({ _id := "ban-g1", name := "ban", type := "global", cooldown := 3 } : CooldownDoc)].length ∧
    MongoCooldownRepository.delete { commandId := "kick", guildId := "g1", userId := none }
        [{ _id := "ban-g1", name := "ban", type := "global", cooldown := 3 }]
      = ([MongoCall.deleteOne "kick-g1" "kick"],
         Except.ok [{ _id := "ban-g1", name := "ban", type := "global", cooldown := 3 }]) :=
  ⟨delete_removes_matching_doc.1 _,
   ⟨{ _id := "ban-g1", name := "ban", type := "global", cooldown := 3 }, by simp, rfl, rfl⟩,
   delete_removes_matching_doc.2.2.2.1 _
     ⟨{ _id := "ban-g1", name := "ban", type := "global", cooldown := 3 }, by simp, rfl, rfl⟩,
   delete_removes_matching_doc.2.2.2.2 _ _ (by decide)⟩

/-- Claim C10: for every entity with a recognized scope, save returns the very
entity it was given, with no reconciliation against the stored document. -/
theorem save_returns_given_entity (e : CooldownEntity) (docs : List CooldownDoc)
    (h : e.type = "global" ∨ e.type = "per-user") :
    ∃ (ops : List MongoCall) (docs2 : List CooldownDoc),
      MongoCooldownRepository.save e docs = (ops, Except.ok (docs2, e)) := by
  rcases h with h | h
  · exact ⟨_, _, save_of_getId_ok e docs _ (getIdFromEntity_global e h)⟩
  · exact ⟨_, _, save_of_getId_ok e docs _ (getIdFromEntity_perUser e h)⟩

/-- Witness for C10 at a concrete global-scoped entity and an empty store. -/
theorem save_returns_given_entity_witness :
    (({ commandId := "ban", guildId := "g1", userId := none, type := "global",
        secondsRemaining := 5 } : CooldownEntity).type = "global" ∨
     ({ commandId := "ban", guildId := "g1", userId := none, type := "global",
        secondsRemaining := 5 } : CooldownEntity).type = "per-user") ∧
    ∃ (ops : List MongoCall) (docs2 : List CooldownDoc),
      MongoCooldownRepository.save
        { commandId := "ban", guildId := "g1", userId := none, type := "global",
          secondsRemaining := 5 } []
        = (ops, Except.ok (docs2,
            { commandId := "ban", guildId := "g1", userId := none, type := "global",
              secondsRemaining := 5 })) :=
  ⟨Or.inl rfl, save_returns_given_entity _ [] (Or.inl rfl)⟩

/-- Counterexample to claim C2 as stated: take the entity with commandId ban,
guildId g1, userId u1 and the unrecognized scope BOGUS.  Its identity
derivation does raise the unrecognized-scope error, yet delete invoked with
that entity's lookup fields does not fail at all: it issues its deleteOne
storage call and completes successfully, because the delete input carries no
scope field. -/
theorem unrecognizedScope_delete_counterexample :
    MongoCooldownRepository.getIdFromEntity
      { commandId := "ban", guildId := "g1", userId := some "u1", type := "BOGUS",
        secondsRemaining := 3 }
      = Except.error "WOK Commands > unrecognized Cooldown type" ∧
    MongoCooldownRepository.delete
      { commandId := "ban", guildId := "g1", userId := some "u1" } []
      = ([MongoCall.deleteOne "ban-g1-u1" "ban"], Except.ok []) :=
  ⟨rfl, rfl⟩

/-- Claim C2 amended: for every entity whose scope is neither global nor
per-user, save fails with the named unrecognized-scope error and issues no
storage operation; delete, whose input carries no scope field, never raises
this error: it always issues exactly its deleteOne storage call and
completes without error. -/
theorem unrecognizedScope_amended (e : CooldownEntity) (docs : List CooldownDoc)
    (h1 : e.type ≠ "global") (h2 : e.type ≠ "per-user") :
    MongoCooldownRepository.save e docs
      = ([], Except.error "WOK Commands > unrecognized Cooldown type") ∧
    (∀ (input : WhereOneInput) (docs2 : List CooldownDoc),
      MongoCooldownRepository.delete input docs2
        = ([MongoCall.deleteOne (MongoCooldownRepository.getIdFromWhereOneInput input)
              input.commandId],
           Except.ok (storeDeleteOne docs2
             (MongoCooldownRepository.getIdFromWhereOneInput input) input.commandId))) := by
  constructor
  · unfold MongoCooldownRepository.save
    rw [getIdFromEntity_unrecognized e h1 h2]
  · intro input docs2
    rfl

/-- Witness for the amended C2 at the BOGUS-scoped entity. -/
theorem unrecognizedScope_amended_witness :
    (({ commandId := "ban", guildId := "g1", userId := some "u1", type := "BOGUS",
        secondsRemaining := 3 } : CooldownEntity).type ≠ "global") ∧
    (({ commandId := "ban", guildId := "g1", userId := some "u1", type := "BOGUS",
        secondsRemaining := 3 } : CooldownEntity).type ≠ "per-user") ∧
    (MongoCooldownRepository.save
        { commandId := "ban", guildId := "g1", userId := some "u1", type := "BOGUS",
          secondsRemaining := 3 } []
        = ([], Except.error "WOK Commands > unrecognized Cooldown type") ∧
     (∀ (input : WhereOneInput) (docs2 : List CooldownDoc),
       MongoCooldownRepository.delete input docs2
         = ([MongoCall.deleteOne (MongoCooldownRepository.getIdFromWhereOneInput input)
               input.commandId],
            Except.ok (storeDeleteOne docs2
              (MongoCooldownRepository.getIdFromWhereOneInput input) input.commandId)))) :=
  ⟨by decide, by decide, unrecognizedScope_amended _ [] (by decide) (by decide)⟩

/-- Counterexample to claim C8 as stated: at the empty-string userId the
lookup derivation is truthiness-guarded and omits the user suffix, while the
per-user save derivation appends a trailing separator, so the two identities
differ. -/
theorem idConsistency_counterexample :
    MongoCooldownRepository.getIdFromWhereOneInput
      { commandId := "ban", guildId := "g1", userId := some "" } = "ban-g1" ∧
    MongoCooldownRepository.getIdFromEntity
      { commandId := "ban", guildId := "g1", userId := some "", type := "per-user",
        secondsRemaining := 0 } = Except.ok "ban-g1-" ∧
    MongoCooldownRepository.getIdFromWhereOneInput
      { commandId := "ban", guildId := "g1", userId := some "" } ≠ "ban-g1-" :=
  ⟨rfl, rfl, by decide⟩

/-- Claim C8 amended: the lookup identity with no userId agrees with the
global-scope save identity for all inputs, and the lookup identity with a
userId agrees with the per-user save identity for every NON-EMPTY userId;
for the empty-string userId the lookup omits the suffix while the save
derivation appends a trailing separator. -/
theorem idConsistency_amended :
    (∀ (cmd g : String) (u : Option String) (sr : Int),
      MongoCooldownRepository.getIdFromEntity
        { commandId := cmd, guildId := g, userId := u, type := "global",
          secondsRemaining := sr }
        = Except.ok (MongoCooldownRepository.getIdFromWhereOneInput
            { commandId := cmd, guildId := g, userId := none })) ∧
    (∀ (cmd g u : String) (sr : Int), u ≠ "" →
      MongoCooldownRepository.getIdFromEntity
        { commandId := cmd, guildId := g, userId := some u, type := "per-user",
          secondsRemaining := sr }
        = Except.ok (MongoCooldownRepository.getIdFromWhereOneInput
            { commandId := cmd, guildId := g, userId := some u })) := by
  constructor
  · intro cmd g u sr
    simp [MongoCooldownRepository.getIdFromEntity,
      MongoCooldownRepository.getIdFromWhereOneInput, tsTruthy, String.append_empty]
  · intro cmd g u sr hu
    simp [MongoCooldownRepository.getIdFromEntity,
      MongoCooldownRepository.getIdFromWhereOneInput, tsTruthy, tsStr, hu,
      String.append_assoc]

/-- Witness for the amended C8 at a concrete non-empty userId. -/
theorem idConsistency_amended_witness :
    MongoCooldownRepository.getIdFromEntity
      { commandId := "ban", guildId := "g1", userId := some "u1", type := "global",
        secondsRemaining := 0 }
      = Except.ok (MongoCooldownRepository.getIdFromWhereOneInput
          { commandId := "ban", guildId := "g1", userId := none }) ∧
    ("u1" : String) ≠ "" ∧
    MongoCooldownRepository.getIdFromEntity
      { commandId := "ban", guildId := "g1", userId := some "u1", type := "per-user",
        secondsRemaining := 0 }
      = Except.ok (MongoCooldownRepository.getIdFromWhereOneInput
          { commandId := "ban", guildId := "g1", userId := some "u1" }) :=
  ⟨idConsistency_amended.1 "ban" "g1" (some "u1") 0, by decide,
   idConsistency_amended.2 "ban" "g1" "u1" 0 (by decide)⟩

/-- A concrete guild settings repository with empty storage and an
identity-returning save, used by witnesses. -/
def repoEmpty : GuildSettingsRepo :=
  { findOneFn := fun _ => none
    saveFn := fun a => a
    findAllFn := [] }

/-- A concrete guild settings repository whose findAll returns one aggregate,
used by the startup-warm witness. -/
def repoWarm : GuildSettingsRepo :=
  { findOneFn := fun _ => none
    saveFn := fun a => a
    findAllFn := [GuildSettingsAggregate.mkDefault "g1"] }

/-- A concrete orchestrator state whose connectivity probe reports false even
though both repositories are configured. -/
def wDisconnected : WOKCommands :=
  { _isDbConnected := some false
    _getDbConnectionStatus := some DbConnectionStatus.DISCONNECTED
    _guildSettingsRepository := some repoEmpty
    _cooldownRepository := some MongoCooldownRepository.iface
    _guildSettings := [] }

/-- A concrete orchestrator state that is connected, with empty storage and an
empty cache. -/
def wConnected : WOKCommands :=
  { _isDbConnected := some true
    _getDbConnectionStatus := some DbConnectionStatus.CONNECTED
    _guildSettingsRepository := some repoEmpty
    _cooldownRepository := some MongoCooldownRepository.iface
    _guildSettings := [] }

/-- A concrete connected orchestrator state whose repository has one stored
aggregate to warm from. -/
def wWarm : WOKCommands :=
  { _isDbConnected := some true
    _getDbConnectionStatus := some DbConnectionStatus.CONNECTED
    _guildSettingsRepository := some repoWarm
    _cooldownRepository := some MongoCooldownRepository.iface
    _guildSettings := [] }

/-- Claim C4: whenever isDBConnected() is false, which covers both a probe
reporting false and no persistence strategy configured, each guarded
repository accessor fails with the DB-not-connected error; the accessors
issue no repository operation in any branch. -/
theorem guardedAccessors_db_not_connected (w : WOKCommands)
    (h : w.isDBConnected = false) :
    w.guildSettingsRepository = Except.error "DB not connected!" ∧
    w.cooldownRepository = Except.error "DB not connected!" := by
  constructor
  · simp [WOKCommands.guildSettingsRepository, h]
  · simp [WOKCommands.cooldownRepository, h]

/-- Witness for C4 at a state with a false probe and both repositories
configured. -/
theorem guardedAccessors_db_not_connected_witness :
    wDisconnected.isDBConnected = false ∧
    (wDisconnected.guildSettingsRepository = Except.error "DB not connected!" ∧
     wDisconnected.cooldownRepository = Except.error "DB not connected!") :=
  ⟨rfl, guardedAccessors_db_not_connected wDisconnected rfl⟩

/-- Claim C5: getOrCreateGuildSettings is cache-aside.  On a hit the cached
aggregate is returned with no repository call and an unchanged state; on a
miss the repository findOne is issued once, the found aggregate or, when
storage is also empty, the default aggregate is stored in the cache under
the guildId and returned. -/
theorem getOrCreateGuildSettings_cache_aside (w : WOKCommands) (guildId : String)
    (repo : GuildSettingsRepo) :
    (∀ gs, cacheGet w._guildSettings guildId = some gs →
      w.getOrCreateGuildSettings guildId = ([], Except.ok (gs, w))) ∧
    (cacheGet w._guildSettings guildId = none →
     w.guildSettingsRepository = Except.ok repo →
      ((∀ gs, repo.findOneFn guildId = some gs →
        w.getOrCreateGuildSettings guildId =
          ([GSCall.findOne guildId],
           Except.ok (gs,
             { w with _guildSettings := cacheSet w._guildSettings guildId gs }))) ∧
       (repo.findOneFn guildId = none →
        w.getOrCreateGuildSettings guildId =
          ([GSCall.findOne guildId],
           Except.ok (GuildSettingsAggregate.mkDefault guildId,
             { w with _guildSettings := (cacheSet w._guildSettings guildId
                  (GuildSettingsAggregate.mkDefault guildId)) }))))) := by
  constructor
  · intro gs hgs
    simp [WOKCommands.getOrCreateGuildSettings, hgs]
  · intro hmiss hrepo
    constructor
    · intro gs hfind
      simp [WOKCommands.getOrCreateGuildSettings, hmiss, hrepo, hfind]
    · intro hfind
      simp [WOKCommands.getOrCreateGuildSettings, hmiss, hrepo, hfind]

/-- Witness for C5: on the connected empty state, fetching guild g2 misses the
cache, reads the repository once, and caches the default aggregate. -/
theorem getOrCreateGuildSettings_cache_aside_witness :
    cacheGet wConnected._guildSettings "g2" = none ∧
    wConnected.guildSettingsRepository = Except.ok repoEmpty ∧
    repoEmpty.findOneFn "g2" = none ∧
    wConnected.getOrCreateGuildSettings "g2" =
      ([GSCall.findOne "g2"],
       Except.ok (GuildSettingsAggregate.mkDefault "g2",
         { wConnected with _guildSettings := (cacheSet wConnected._guildSettings "g2"
              (GuildSettingsAggregate.mkDefault "g2")) })) :=
  ⟨rfl, rfl, rfl,
   ((getOrCreateGuildSettings_cache_aside wConnected "g2" repoEmpty).2 rfl rfl).2 rfl⟩

/-- Claim C6: setPrefix with a null guild is a no-op with no repository call;
otherwise the aggregate is resolved or created, its prefix is replaced, the
mutated aggregate is passed to save, and the cache entry under the guild id
becomes exactly the value save returned. -/
theorem setPrefix_spec (w : WOKCommands) (g : Guild) (p : String)
    (repo : GuildSettingsRepo)
    (hconn : w.isDBConnected = true)
    (hrepo : w._guildSettingsRepository = some repo) :
    (∀ (w2 : WOKCommands) (q : String),
      WOKCommands.setPrefix w2 none q = ([], Except.ok w2)) ∧
    (∃ base w1 calls1,
      w.getOrCreateGuildSettings g.id = (calls1, Except.ok (base, w1)) ∧
      WOKCommands.setPrefix w (some g) p =
        (calls1 ++ [GSCall.save { base with prefixVal := p }],
         Except.ok { w1 with _guildSettings := (cacheSet w1._guildSettings g.id
            (repo.saveFn { base with prefixVal := p })) }) ∧
      cacheGet
          (cacheSet w1._guildSettings g.id (repo.saveFn { base with prefixVal := p }))
          g.id
        = some (repo.saveFn { base with prefixVal := p })) := by
  have hacc := guildSettingsRepository_eq_ok w repo hconn hrepo
  constructor
  · intro w2 q
    rfl
  · cases hcache : cacheGet w._guildSettings g.id with
    | some gs =>
      refine ⟨gs, w, [], ?_, ?_, cacheGet_cacheSet_self _ _ _⟩
      · simp [WOKCommands.getOrCreateGuildSettings, hcache]
      · simp [WOKCommands.setPrefix, WOKCommands.getOrCreateGuildSettings, hcache, hacc]
    | none =>
      have hacc1 : ({ w with _guildSettings := (cacheSet w._guildSettings g.id
            ((repo.findOneFn g.id).getD (GuildSettingsAggregate.mkDefault g.id))) }
            : WOKCommands).guildSettingsRepository = Except.ok repo :=
        guildSettingsRepository_eq_ok _ repo hconn hrepo
      refine ⟨(repo.findOneFn g.id).getD (GuildSettingsAggregate.mkDefault g.id),
        { w with _guildSettings := (cacheSet w._guildSettings g.id
             ((repo.findOneFn g.id).getD (GuildSettingsAggregate.mkDefault g.id))) },
        [GSCall.findOne g.id], ?_, ?_, cacheGet_cacheSet_self _ _ _⟩
      · simp [WOKCommands.getOrCreateGuildSettings, hcache, hacc]
      · simp [WOKCommands.setPrefix, WOKCommands.getOrCreateGuildSettings, hcache,
          hacc, hacc1]

/-- Witness for C6 on the connected empty state and guild g1: the default
aggregate is created, its prefix set, and the cache ends up holding the value
returned by save. -/
theorem setPrefix_spec_witness :
    wConnected.isDBConnected = true ∧
    wConnected._guildSettingsRepository = some repoEmpty ∧
    ((∀ (w2 : WOKCommands) (q : String),
      WOKCommands.setPrefix w2 none q = ([], Except.ok w2)) ∧
    (∃ base w1 calls1,
      wConnected.getOrCreateGuildSettings (Guild.mk "g1").id
        = (calls1, Except.ok (base, w1)) ∧
      WOKCommands.setPrefix wConnected (some (Guild.mk "g1")) "?" =
        (calls1 ++ [GSCall.save { base with prefixVal := "?" }],
         Except.ok { w1 with _guildSettings := (cacheSet w1._guildSettings (Guild.mk "g1").id
              (repoEmpty.saveFn { base with prefixVal := "?" })) }) ∧
      cacheGet
          (cacheSet w1._guildSettings (Guild.mk "g1").id
            (repoEmpty.saveFn { base with prefixVal := "?" }))
          (Guild.mk "g1").id
        = some (repoEmpty.saveFn { base with prefixVal := "?" }))) :=
  ⟨rfl, rfl, setPrefix_spec wConnected (Guild.mk "g1") "?" repoEmpty rfl rfl⟩

/-- Claim C7: with a persistence backend configured, a CONNECTED status makes
the database phase of setUp call findAll exactly once and replace the cache
with an entry for every returned aggregate keyed by its guildId, all before
the command handler is constructed; any other status makes initialization
fail fatally with the database-not-connected error, with findAll never
called. -/
theorem setUpDbPhase_spec (w : WOKCommands) (repo : GuildSettingsRepo)
    (hst : w._getDbConnectionStatus = some DbConnectionStatus.CONNECTED)
    (hconn : w.isDBConnected = true)
    (hrepo : w._guildSettingsRepository = some repo) :
    WOKCommands.setUpDbPhase w true
      = ([GSCall.findAll],
         Except.ok { w with _guildSettings := warmCache repo.findAllFn }) ∧
    (∀ a ∈ repo.findAllFn,
      ∃ b, cacheGet (warmCache repo.findAllFn) a.guildId = some b ∧
        b.guildId = a.guildId) ∧
    (∀ w2 : WOKCommands, w2.dbConnectionStatus ≠ DbConnectionStatus.CONNECTED →
      WOKCommands.setUpDbPhase w2 true
        = ([], Except.error "WOKCommands > Database not connected!")) := by
  refine ⟨?_, ?_, ?_⟩
  · have hacc := guildSettingsRepository_eq_ok w repo hconn hrepo
    have hstat : w.dbConnectionStatus = DbConnectionStatus.CONNECTED := by
      simp [WOKCommands.dbConnectionStatus, hst]
    simp [WOKCommands.setUpDbPhase, hstat, hacc]
  · intro a ha
    exact warmCache_mem _ a ha
  · intro w2 h2
    simp [WOKCommands.setUpDbPhase, h2]

/-- Witness for C7 on the connected state with one stored aggregate; the
not-connected conjunct is evaluated at the disconnected state. -/
theorem setUpDbPhase_spec_witness :
    wWarm._getDbConnectionStatus = some DbConnectionStatus.CONNECTED ∧
    wWarm.isDBConnected = true ∧
    wWarm._guildSettingsRepository = some repoWarm ∧
    (WOKCommands.setUpDbPhase wWarm true
      = ([GSCall.findAll],
         Except.ok { wWarm with _guildSettings := warmCache repoWarm.findAllFn }) ∧
    (∀ a ∈ repoWarm.findAllFn,
      ∃ b, cacheGet (warmCache repoWarm.findAllFn) a.guildId = some b ∧
        b.guildId = a.guildId) ∧
    (∀ w2 : WOKCommands, w2.dbConnectionStatus ≠ DbConnectionStatus.CONNECTED →
      WOKCommands.setUpDbPhase w2 true
        = ([], Except.error "WOKCommands > Database not connected!"))) :=
  ⟨rfl, rfl, rfl, setUpDbPhase_spec wWarm repoWarm rfl rfl rfl⟩

end WOK
